/-
Verification of the statistics and comparison engine of the Starbucks
nutritional-analysis repository (src/data_processor.py), against its
natural-language specification.

The engine is shallowly embedded: a pandas DataFrame becomes a `DataFrame`
(a column-name list plus a row-major list of cells, a cell being `Option ℚ`
with `none` playing the role of NaN / a missing value); the `DataProcessor`
instance state becomes an explicit structure; Python exceptions become the
`Except` monad.  Floating-point numbers are modelled as rationals; the one
irrational quantity (the sample standard deviation, a square root) only ever
appears rounded to two decimal places, and that rounded value is computed
exactly with integer square roots.
-/
import Mathlib

namespace NutriEngine

/-- A cell of a table: a numeric value, or `none` for a missing value (NaN). -/
abbrev Cell := Option ℚ

/-- A pandas DataFrame: ordered column names and row-major cells.
Cell `i` of a row holds the value of column `i`; a short row reads as
missing beyond its length. -/
structure DataFrame where
  columns : List String
  rows : List (List Cell)
deriving DecidableEq, Repr

/-- The value argument of `filter_data`: a single number, or a `(low, high)`
pair for the `between` operator. -/
inductive PyVal where
  | num : ℚ → PyVal
  | pair : ℚ → ℚ → PyVal
deriving DecidableEq, Repr

/-- Python exceptions the embedded engine can raise. -/
inductive PyError where
  /-- pandas `KeyError`: `df[nutrient]` with `nutrient` not a column. -/
  | keyError : String → PyError
  /-- `TypeError`: operand shape does not fit the operator
  (indexing a scalar for `between`, comparing a column with a tuple). -/
  | typeError : PyError
  /-- `ValueError` raised by `filter_dataset` for an unknown category; the
  payload is the category named by its message
  (`"{category} not found in datasets"`). -/
  | valueError : String → PyError
deriving DecidableEq, Repr

/-- Index of a column name in a column list (`df[nutrient]` resolution):
`none` when the name is not a column. -/
def colIdx : List String → String → Option ℕ
  | [], _ => none
  | c :: rest, n => if c = n then some 0 else (colIdx rest n).map (· + 1)

/-- The cell of a row at a column index (missing beyond the row's length). -/
def cellAt (r : List Cell) (i : ℕ) : Cell := r.getD i none

/-- `DataProcessor.filter_data(df, nutrient, operator, value)`:
the four recognized operators build a boolean mask (a missing value never
satisfies a comparison, as NaN compares false in pandas) and keep the
matching rows; an unrecognized operator prints a warning and returns the
DataFrame unchanged. -/
def filter_data (df : DataFrame) (nutrient : String) (operator : String)
    (value : PyVal) : Except PyError DataFrame :=
  if operator = ">" then
    match colIdx df.columns nutrient with
    | none => .error (.keyError nutrient)
    | some i =>
      match value with
      | .num v => .ok ⟨df.columns, df.rows.filter fun r =>
          match cellAt r i with
          | some x => decide (v < x)
          | none => false⟩
      | .pair _ _ => .error .typeError
  else if operator = "<" then
    match colIdx df.columns nutrient with
    | none => .error (.keyError nutrient)
    | some i =>
      match value with
      | .num v => .ok ⟨df.columns, df.rows.filter fun r =>
          match cellAt r i with
          | some x => decide (x < v)
          | none => false⟩
      | .pair _ _ => .error .typeError
  else if operator = "==" then
    match colIdx df.columns nutrient with
    | none => .error (.keyError nutrient)
    | some i =>
      match value with
      | .num v => .ok ⟨df.columns, df.rows.filter fun r =>
          match cellAt r i with
          | some x => decide (x = v)
          | none => false⟩
      | .pair _ _ => .error .typeError
  else if operator = "between" then
    match colIdx df.columns nutrient with
    | none => .error (.keyError nutrient)
    | some i =>
      match value with
      | .pair lo hi => .ok ⟨df.columns, df.rows.filter fun r =>
          match cellAt r i with
          | some x => decide (lo ≤ x ∧ x ≤ hi)
          | none => false⟩
      | .num _ => .error .typeError
  else
    -- "operator not recognized." is printed; the original frame is returned
    .ok df

/-- The engine's instance state: the `datasets` dict (insertion-ordered
association list with unique keys, as a Python dict) and the `categories`
list. -/
structure DataProcessor where
  datasets : List (String × DataFrame)
  categories : List String
deriving DecidableEq, Repr

/-- `DataProcessor()`: empty dataset storage. -/
def DataProcessor.empty : DataProcessor := ⟨[], []⟩

/-- Python dict update `d[k] = v`: replace the value at an existing key in
place, else append the new binding. -/
def dictInsert : List (String × DataFrame) → String → DataFrame →
    List (String × DataFrame)
  | [], k, v => [(k, v)]
  | (k', v') :: rest, k, v =>
    if k' = k then (k, v) :: rest else (k', v') :: dictInsert rest k v

/-- Python dict read `d.get(k)`. -/
def dictLookup (l : List (String × DataFrame)) (k : String) : Option DataFrame :=
  (l.find? fun kv => decide (kv.1 = k)).map (·.2)

/-- `DataProcessor.add_datasets(category, df)`: store the table under the
category key and append the category name to `categories` (the append is
unconditional in the source). -/
def DataProcessor.add_datasets (p : DataProcessor) (category : String)
    (df : DataFrame) : DataProcessor :=
  { datasets := dictInsert p.datasets category df
    categories := p.categories ++ [category] }

/-- `DataProcessor.filter_dataset(category, nutrient, operator, value)`:
raises `ValueError` naming the category when it is not in `categories`,
otherwise filters that category's table. -/
def DataProcessor.filter_dataset (p : DataProcessor) (category : String)
    (nutrient : String) (operator : String) (value : PyVal) :
    Except PyError DataFrame :=
  if category ∈ p.categories then
    match dictLookup p.datasets category with
    | some df => filter_data df nutrient operator value
    | none => .error (.keyError category)
  else
    .error (.valueError category)

/-! ### Column statistics (pandas aggregation, missing values excluded) -/

/-- The non-missing values of column `i`, in stored row order (pandas
excludes NaN from every column aggregate). -/
def colVals (df : DataFrame) (i : ℕ) : List ℚ :=
  df.rows.filterMap fun r => cellAt r i

/-- The non-missing values of a named column (`[]` for an absent column). -/
def colValsByName (df : DataFrame) (c : String) : List ℚ :=
  match colIdx df.columns c with
  | some i => colVals df i
  | none => []

/-- `df[c].sum()`: sum of the non-missing values (0 when there are none). -/
def colSum (df : DataFrame) (c : String) : ℚ := (colValsByName df c).sum

/-- Insert into a sorted list (ascending). -/
def insertQ (x : ℚ) : List ℚ → List ℚ
  | [] => [x]
  | y :: ys => if x ≤ y then x :: y :: ys else y :: insertQ x ys

/-- Insertion sort, ascending, as pandas sorts a column before a quantile. -/
def sortQ : List ℚ → List ℚ
  | [] => []
  | x :: xs => insertQ x (sortQ xs)

/-- `Series.mean()`: NaN on an empty column. -/
def meanQ (vals : List ℚ) : Option ℚ :=
  if vals.length = 0 then none else some (vals.sum / vals.length)

/-- `Series.min()`: NaN on an empty column. -/
def minQ : List ℚ → Option ℚ
  | [] => none
  | x :: xs => some (xs.foldl min x)

/-- `Series.max()`: NaN on an empty column. -/
def maxQ : List ℚ → Option ℚ
  | [] => none
  | x :: xs => some (xs.foldl max x)

/-- `Series.quantile(q)` with linear interpolation: at position
`h = q·(n−1)` of the sorted values, `x_⌊h⌋ + (h−⌊h⌋)·(x_⌊h⌋₊₁ − x_⌊h⌋)`;
NaN on an empty column.  `Series.median()` is `quantile(0.5)`. -/
def quantileQ (vals : List ℚ) (q : ℚ) : Option ℚ :=
  match sortQ vals with
  | [] => none
  | x :: xs =>
    let n : ℕ := (x :: xs).length
    let h : ℚ := q * ((n : ℚ) - 1)
    let f : ℕ := (⌊h⌋).toNat
    let x0 : ℚ := (x :: xs).getD f 0
    let x1 : ℚ := (x :: xs).getD (f + 1) x0
    some (x0 + (h - (f : ℚ)) * (x1 - x0))

/-- Sample variance with the `n−1` denominator (only used when `n ≥ 2`). -/
def varQ (vals : List ℚ) : ℚ :=
  let n : ℕ := vals.length
  let m : ℚ := vals.sum / (n : ℚ)
  (vals.map fun x => (x - m) ^ 2).sum / ((n : ℚ) - 1)

/-! ### Rounding to two decimal places -/

/-- Round to the nearest integer, ties to even (Python `round` on floats). -/
def roundHalfEven (q : ℚ) : ℤ :=
  let f : ℤ := ⌊q⌋
  let r : ℚ := q - (f : ℚ)
  if r < 1 / 2 then f
  else if 1 / 2 < r then f + 1
  else if f % 2 = 0 then f else f + 1

/-- Python `round(q, 2)`. -/
def round2 (q : ℚ) : ℚ := (roundHalfEven (q * 100) : ℚ) / 100

/-- `round(sqrt v, 2)` computed exactly with integer square roots: writing
`v = a/b` with `a, b > 0`, the integer nearest `100·√v` is read off
`Nat.sqrt (4·(10000·a)·b)` (ties, when `100·√v` is exactly a half-integer,
go to even).  This is the only place a square root (the sample standard
deviation) reaches the output, always already rounded. -/
def sqrtRound2 (v : ℚ) : ℚ :=
  if 0 < v then
    let a : ℕ := 10000 * v.num.toNat
    let b : ℕ := v.den
    let s : ℕ := Nat.sqrt (4 * a * b)
    let m : ℕ := (s + b) / (2 * b)
    let n : ℕ := if 4 * a * b = b ^ 2 * (2 * m - 1) ^ 2 ∧ m % 2 = 1
      then m - 1 else m
    ((n : ℤ) : ℚ) / 100
  else ((0 : ℤ) : ℚ) / 100

/-! ### compare_datasets -/

/-- A value in a comparison record: `int(...)` for `count`, a rounded number,
or `np.nan` for a missing entry. -/
inductive StatVal where
  | int : ℤ → StatVal
  | num : ℚ → StatVal
  | missing : StatVal
deriving DecidableEq, Repr

/-- Wrap an optional statistic: `round(x, 2)`, with NaN passed through. -/
def qstat : Option ℚ → StatVal
  | none => .missing
  | some q => .num (round2 q)

/-- The nine field names of a comparison record, in construction order. -/
def statFields : List String :=
  ["count", "mean", "median", "std", "min", "max", "25%", "50%", "75%"]

/-- One `(category, nutrient)` record of `compare_datasets`: the nine-field
dict when the column exists (`std` is NaN with fewer than two values, every
other aggregate is NaN only on an empty column), all nine fields NaN when it
does not. -/
def statRecord (df : DataFrame) (n : String) : List (String × StatVal) :=
  match colIdx df.columns n with
  | some i =>
    let vals := colVals df i
    [("count", .int (vals.length : ℤ)),
     ("mean", qstat (meanQ vals)),
     ("median", qstat (quantileQ vals (1 / 2))),
     ("std", if vals.length < 2 then .missing else .num (sqrtRound2 (varQ vals))),
     ("min", qstat (minQ vals)),
     ("max", qstat (maxQ vals)),
     ("25%", qstat (quantileQ vals (1 / 4))),
     ("50%", qstat (quantileQ vals (1 / 2))),
     ("75%", qstat (quantileQ vals (3 / 4)))]
  | none => statFields.map fun k => (k, .missing)

/-- `set.intersection(*[set(df.columns) for df in datasets.values()])` as a
duplicate-free list (Python set iteration order is unspecified; only the
membership matters downstream). -/
def commonCols (p : DataProcessor) : List String :=
  match p.datasets with
  | [] => []
  | pr0 :: rest =>
    pr0.2.columns.dedup.filter fun c => decide (∀ pr ∈ rest, c ∈ pr.2.columns)

/-- The working nutrient set of `compare_datasets`: the caller's list
verbatim, else the common columns of all datasets. -/
def resolveNutrients (p : DataProcessor) : Option (List String) → List String
  | some ns => ns
  | none => commonCols p

/-- `DataProcessor.compare_datasets(nutrients=None)`: `None` with fewer than
two datasets (a message is printed), else the per-category, per-nutrient
nine-field records in dict insertion order. -/
def DataProcessor.compare_datasets (p : DataProcessor)
    (nutrients : Option (List String)) :
    Option (List (String × List (String × List (String × StatVal)))) :=
  if p.datasets.length < 2 then none
  else some (p.datasets.map fun pr =>
    (pr.1, (resolveNutrients p nutrients).map fun n => (n, statRecord pr.2 n)))

/-! ### calculate_descriptive_stats -/

/-- A value of the unrounded `describe()` table: exact rational, the square
root of a rational (the sample standard deviation), or NaN. -/
inductive RealVal where
  | rat : ℚ → RealVal
  | sqrtv : ℚ → RealVal
  | missing : RealVal
deriving DecidableEq, Repr

/-- Wrap an optional exact statistic of `describe()`. -/
def rstat : Option ℚ → RealVal
  | none => .missing
  | some q => .rat q

/-- One column of `df.describe()`: count, mean, std, min, quartiles, max
over the non-missing values, unrounded. -/
def describeCol (vals : List ℚ) : List (String × RealVal) :=
  [("count", .rat (vals.length : ℚ)),
   ("mean", rstat (meanQ vals)),
   ("std", if vals.length < 2 then .missing else .sqrtv (varQ vals)),
   ("min", rstat (minQ vals)),
   ("25%", rstat (quantileQ vals (1 / 4))),
   ("50%", rstat (quantileQ vals (1 / 2))),
   ("75%", rstat (quantileQ vals (3 / 4))),
   ("max", rstat (maxQ vals))]

/-- `df.describe()`: the per-column summary table. -/
def describeDf (df : DataFrame) : List (String × List (String × RealVal)) :=
  df.columns.map fun c => (c, describeCol (colValsByName df c))

/-- The per-category result of `calculate_descriptive_stats`. -/
structure DescStats where
  describe : List (String × List (String × RealVal))
  ratio : List (String × ℚ)
deriving DecidableEq, Repr

/-- The `ratio` dict: the three sum ratios when Fat, Protein and Carb are
all columns, else left empty. -/
def ratiosOf (df : DataFrame) : List (String × ℚ) :=
  if "Fat" ∈ df.columns ∧ "Protein" ∈ df.columns ∧ "Carb" ∈ df.columns then
    [("fat_to_protein", colSum df "Fat" / colSum df "Protein"),
     ("protein_to_carb", colSum df "Protein" / colSum df "Carb"),
     ("carb_to_fat", colSum df "Carb" / colSum df "Fat")]
  else []

/-- `DataProcessor.calculate_descriptive_stats()`: per category, the
`describe()` table and the nutritional ratios. -/
def DataProcessor.calculate_descriptive_stats (p : DataProcessor) :
    List (String × DescStats) :=
  p.datasets.map fun pr =>
    (pr.1, { describe := describeDf pr.2, ratio := ratiosOf pr.2 })

/-! ### Concrete tables and engine states used by witnesses -/

/-- A calories table with one missing value (row order 100, 300, NaN, 500). -/
def dfEx : DataFrame := ⟨["Calories"], [[some 100], [some 300], [none], [some 500]]⟩

/-- A table carrying the three ratio columns. -/
def dfNutr : DataFrame :=
  ⟨["Fat", "Protein", "Carb"],
   [[some 2, some 1, some 1], [some 4, some 1, some 3]]⟩

/-- A second category with a different schema. -/
def dfDrinks : DataFrame :=
  ⟨["Calories", "Fat"], [[some 50, some 0], [some 120, some 3]]⟩

/-- An engine state with a single registered category. -/
def procOne : DataProcessor := DataProcessor.empty.add_datasets "food" dfNutr

/-- An engine state with two registered categories. -/
def procEx : DataProcessor := procOne.add_datasets "drinks" dfDrinks

/-! ### Helper lemmas -/

/-- A name absent from a column list has no column index. -/
theorem colIdx_eq_none (l : List String) (n : String) (h : n ∉ l) :
    colIdx l n = none := by
  induction l with
  | nil => rfl
  | cons c rest ih =>
    simp only [List.mem_cons, not_or] at h
    have hcn : ¬ c = n := fun hcc => h.1 hcc.symm
    simp [colIdx, ih h.2, hcn]

/-- Reading back a key just written into a Python dict. -/
theorem dictLookup_dictInsert (l : List (String × DataFrame)) (k : String)
    (v : DataFrame) : dictLookup (dictInsert l k v) k = some v := by
  induction l with
  | nil => simp [dictInsert, dictLookup, List.find?]
  | cons kv rest ih =>
    obtain ⟨k', v'⟩ := kv
    by_cases h : k' = k
    · simp [dictInsert, h, dictLookup, List.find?]
    · simpa [dictInsert, h, dictLookup, List.find?] using ih

/-! ### C1: unrecognized filter operator -/

/-- C1 counterexample: with the operator `">="` — not one of the four
recognized — `filter_data` does not fail; it returns the unfiltered table. -/
theorem filter_data_unrecognized_op_cex :
    filter_data dfEx "Calories" ">=" (.num 3) = .ok dfEx := by rfl

/-- C1 (amended): for every table, nutrient and operand, applying
`filter_data` with an operator outside the four recognized ones prints a
warning and returns the unfiltered table unchanged; no error is raised. -/
theorem filter_data_unrecognized_op_passthrough (df : DataFrame)
    (nutrient op : String) (value : PyVal)
    (h : op ∉ [">", "<", "==", "between"]) :
    filter_data df nutrient op value = .ok df := by
  simp only [List.mem_cons, List.not_mem_nil, or_false, not_or] at h
  obtain ⟨h1, h2, h3, h4⟩ := h
  simp only [filter_data, if_neg h1, if_neg h2, if_neg h3, if_neg h4]

/-- C1 witness: the amended theorem applied at the operator `">="`. -/
theorem filter_data_unrecognized_op_passthrough_witness :
    ">=" ∉ [">", "<", "==", "between"] ∧
      filter_data dfEx "Calories" ">=" (.num 3) = .ok dfEx :=
  ⟨by decide,
   filter_data_unrecognized_op_passthrough dfEx "Calories" ">=" (.num 3)
     (by decide)⟩

/-! ### C2: comparison with fewer than two categories -/

/-- C2: with fewer than two registered datasets, `compare_datasets` returns
its distinguishable failure value (`None` after printing a message, embedded
as `none`) for every nutrient argument — never a partial or empty
comparison. -/
theorem compare_datasets_insufficient (p : DataProcessor)
    (nutrients : Option (List String)) (h : p.datasets.length < 2) :
    p.compare_datasets nutrients = none := by
  simp [DataProcessor.compare_datasets, h]

/-- C2 witness: one registered category. -/
theorem compare_datasets_insufficient_witness :
    procOne.datasets.length < 2 ∧ procOne.compare_datasets none = none :=
  ⟨by decide, compare_datasets_insufficient procOne none (by decide)⟩

/-! ### C5: filtering on an unknown column -/

/-- C5: for every table, every recognized operator and every operand,
filtering on a nutrient that is not a column fails with the `KeyError`
naming that nutrient (pandas' unknown-column error). -/
theorem filter_data_unknown_column (df : DataFrame) (nutrient op : String)
    (value : PyVal)
    (hop : op = ">" ∨ op = "<" ∨ op = "==" ∨ op = "between")
    (hcol : nutrient ∉ df.columns) :
    filter_data df nutrient op value = .error (.keyError nutrient) := by
  have hnone := colIdx_eq_none df.columns nutrient hcol
  rcases hop with rfl | rfl | rfl | rfl <;>
      simp only [filter_data, hnone] <;> rfl

/-- C5 witness: filtering `dfEx` on the absent column `"Fiber"`. -/
theorem filter_data_unknown_column_witness :
    ("Fiber" ∉ dfEx.columns) ∧
      filter_data dfEx "Fiber" ">" (.num 5) = .error (.keyError "Fiber") :=
  ⟨by decide,
   filter_data_unknown_column dfEx "Fiber" ">" (.num 5) (Or.inl rfl)
     (by decide)⟩

/-! ### C6: registering an already-registered category -/

/-- C6 counterexample: registering `"food"` twice leaves a duplicate in the
ordered category list — the claimed no-duplicates invariant fails. -/
theorem add_datasets_duplicate_category_cex :
    ¬ (((DataProcessor.empty.add_datasets "food" dfNutr).add_datasets
        "food" dfEx).categories).Nodup := by decide

/-- C6 (amended): registering a category overwrites its table under the
existing dict key, but appends the category name to the ordered list
unconditionally — on re-registration the list gains a duplicate entry. -/
theorem add_datasets_appends_unconditionally (p : DataProcessor)
    (cat : String) (df : DataFrame) :
    (p.add_datasets cat df).categories = p.categories ++ [cat] ∧
      dictLookup (p.add_datasets cat df).datasets cat = some df :=
  ⟨rfl, dictLookup_dictInsert p.datasets cat df⟩

/-! ### C9: the filter result is a derived table -/

/-- C9: whenever `filter_data` succeeds, the result preserves all columns
and its rows are a subsequence of the input rows (a subset in original
order); the input table is untouched — `filter_data` is a pure static
function of the frame, and the registered datasets never enter it. -/
theorem filter_data_frame_preserved (df : DataFrame) (nutrient op : String)
    (value : PyVal) (t : DataFrame)
    (h : filter_data df nutrient op value = .ok t) :
    t.columns = df.columns ∧ t.rows.Sublist df.rows := by
  unfold filter_data at h
  repeat' split at h
  all_goals
    first
      | exact Except.noConfusion h
      | (injection h with h2; subst h2; exact ⟨rfl, List.filter_sublist _⟩)
      | (injection h with h2; subst h2; exact ⟨rfl, List.Sublist.refl _⟩)

/-- C9 witness: filtering `dfEx` by `Calories > 300`. -/
theorem filter_data_frame_preserved_witness :
    filter_data dfEx "Calories" ">" (.num 300) =
        .ok ⟨["Calories"], [[some 500]]⟩ ∧
      (DataFrame.mk ["Calories"] [[some 500]]).columns = dfEx.columns ∧
      (DataFrame.mk ["Calories"] [[some 500]]).rows.Sublist dfEx.rows :=
  ⟨by rfl,
   filter_data_frame_preserved dfEx "Calories" ">" (.num 300) _ (by rfl)⟩

/-! ### C10: single-category filter on an unknown category -/

/-- C10: `filter_dataset` on a category outside the registered list fails
with the `ValueError` naming that category; the engine state is unread and
unchanged (the function is pure in the embedding and the source method
performs no mutation). -/
theorem filter_dataset_unknown_category (p : DataProcessor)
    (category nutrient op : String) (value : PyVal)
    (h : category ∉ p.categories) :
    p.filter_dataset category nutrient op value =
      .error (.valueError category) := by
  simp [DataProcessor.filter_dataset, h]

/-- C10 witness: the category `"snacks"` is not registered in `procEx`. -/
theorem filter_dataset_unknown_category_witness :
    ("snacks" ∉ procEx.categories) ∧
      procEx.filter_dataset "snacks" "Calories" ">" (.num 1) =
        .error (.valueError "snacks") :=
  ⟨by decide,
   filter_dataset_unknown_category procEx "snacks" "Calories" ">" (.num 1)
     (by decide)⟩

/-! ### Unfolded forms of `filter_data` at each recognized operator -/

/-- `filter_data` at `">"`, unfolded. -/
theorem filter_data_gt (df : DataFrame) (nutrient : String) (value : PyVal) :
    filter_data df nutrient ">" value =
      match colIdx df.columns nutrient with
      | none => .error (.keyError nutrient)
      | some i =>
        match value with
        | .num v => .ok ⟨df.columns, df.rows.filter fun r =>
            match cellAt r i with
            | some x => decide (v < x)
            | none => false⟩
        | .pair _ _ => .error .typeError := rfl

/-- `filter_data` at `"<"`, unfolded. -/
theorem filter_data_lt (df : DataFrame) (nutrient : String) (value : PyVal) :
    filter_data df nutrient "<" value =
      match colIdx df.columns nutrient with
      | none => .error (.keyError nutrient)
      | some i =>
        match value with
        | .num v => .ok ⟨df.columns, df.rows.filter fun r =>
            match cellAt r i with
            | some x => decide (x < v)
            | none => false⟩
        | .pair _ _ => .error .typeError := rfl

/-- `filter_data` at `"=="`, unfolded. -/
theorem filter_data_eq (df : DataFrame) (nutrient : String) (value : PyVal) :
    filter_data df nutrient "==" value =
      match colIdx df.columns nutrient with
      | none => .error (.keyError nutrient)
      | some i =>
        match value with
        | .num v => .ok ⟨df.columns, df.rows.filter fun r =>
            match cellAt r i with
            | some x => decide (x = v)
            | none => false⟩
        | .pair _ _ => .error .typeError := rfl

/-- `filter_data` at `"between"`, unfolded. -/
theorem filter_data_between (df : DataFrame) (nutrient : String)
    (value : PyVal) :
    filter_data df nutrient "between" value =
      match colIdx df.columns nutrient with
      | none => .error (.keyError nutrient)
      | some i =>
        match value with
        | .pair lo hi => .ok ⟨df.columns, df.rows.filter fun r =>
            match cellAt r i with
            | some x => decide (lo ≤ x ∧ x ≤ hi)
            | none => false⟩
        | .num _ => .error .typeError := rfl

/-- A row whose filtered cell is missing cannot survive a mask that sends
missing cells to `false`. -/
theorem cell_not_none_of_mem_filter {rows : List (List Cell)}
    {f : List Cell → Bool} {r : List Cell} {i : ℕ}
    (hr : r ∈ rows.filter f) (hf : ∀ s, cellAt s i = none → f s = false) :
    cellAt r i ≠ none := by
  intro hnone
  have hmem := List.of_mem_filter hr
  rw [hf r hnone] at hmem
  exact Bool.noConfusion hmem

/-! ### C7: `between` semantics -/

/-- C7: filtering a column by `between (lo, hi)` succeeds and keeps exactly
the rows whose value `v` in that column satisfies `lo ≤ v ≤ hi` (both
bounds inclusive); when `hi < lo` no row survives — the bounds are not
swapped. -/
theorem filter_data_between_spec (df : DataFrame) (nutrient : String)
    (lo hi : ℚ) (i : ℕ)
    (hidx : colIdx df.columns nutrient = some i) :
    ∃ t, filter_data df nutrient "between" (.pair lo hi) = .ok t ∧
      (∀ r, r ∈ t.rows ↔
        r ∈ df.rows ∧ ∃ v, cellAt r i = some v ∧ lo ≤ v ∧ v ≤ hi) ∧
      (hi < lo → t.rows = []) := by
  refine ⟨⟨df.columns, df.rows.filter fun r =>
      match cellAt r i with
      | some x => decide (lo ≤ x ∧ x ≤ hi)
      | none => false⟩, ?_, ?_, ?_⟩
  · rw [filter_data_between, hidx]
  · intro r
    simp only [List.mem_filter, and_congr_right_iff]
    intro _
    cases hc : cellAt r i with
    | none => simp [hc]
    | some v => simp [hc, decide_eq_true_iff]
  · intro hlt
    refine List.filter_eq_nil_iff.mpr fun r _ => ?_
    cases hc : cellAt r i with
    | none => simp [hc]
    | some v =>
      simp only [hc, decide_eq_true_iff]
      exact fun hcon => absurd (hcon.1.trans hcon.2) (not_le.mpr hlt)

/-- C7 witness: `dfEx` filtered by `Calories between (200, 400)` keeps
exactly the row with value 300. -/
theorem filter_data_between_spec_witness :
    colIdx dfEx.columns "Calories" = some 0 ∧
      ∃ t, filter_data dfEx "Calories" "between" (.pair 200 400) = .ok t ∧
        (∀ r, r ∈ t.rows ↔
          r ∈ dfEx.rows ∧ ∃ v, cellAt r 0 = some v ∧ 200 ≤ v ∧ v ≤ 400) ∧
        ((400 : ℚ) < 200 → t.rows = []) :=
  ⟨by rfl, filter_data_between_spec dfEx "Calories" 200 400 0 (by rfl)⟩

/-! ### C8: missing values never satisfy a filter -/

/-- C8: under every recognized operator and every operand, a row whose
value in the filtered column is missing is excluded from a successful
filter result. -/
theorem filter_data_missing_excluded (df : DataFrame) (nutrient op : String)
    (value : PyVal) (t : DataFrame) (i : ℕ) (r : List Cell)
    (hop : op = ">" ∨ op = "<" ∨ op = "==" ∨ op = "between")
    (hidx : colIdx df.columns nutrient = some i)
    (h : filter_data df nutrient op value = .ok t)
    (hr : r ∈ t.rows) : cellAt r i ≠ none := by
  rcases hop with rfl | rfl | rfl | rfl
  · rw [filter_data_gt, hidx] at h
    cases value with
    | num v =>
      injection h with h2
      subst h2
      exact cell_not_none_of_mem_filter hr fun s hs => by simp [hs]
    | pair a b => exact Except.noConfusion h
  · rw [filter_data_lt, hidx] at h
    cases value with
    | num v =>
      injection h with h2
      subst h2
      exact cell_not_none_of_mem_filter hr fun s hs => by simp [hs]
    | pair a b => exact Except.noConfusion h
  · rw [filter_data_eq, hidx] at h
    cases value with
    | num v =>
      injection h with h2
      subst h2
      exact cell_not_none_of_mem_filter hr fun s hs => by simp [hs]
    | pair a b => exact Except.noConfusion h
  · rw [filter_data_between, hidx] at h
    cases value with
    | num v => exact Except.noConfusion h
    | pair lo hi =>
      injection h with h2
      subst h2
      exact cell_not_none_of_mem_filter hr fun s hs => by simp [hs]

/-- C8 witness: the missing-value row of `dfEx` is excluded by a wide
`between` range, and the surviving row 300 has a present cell. -/
theorem filter_data_missing_excluded_witness :
    colIdx dfEx.columns "Calories" = some 0 ∧
      filter_data dfEx "Calories" "between" (.pair 0 400) =
        .ok ⟨["Calories"], [[some 100], [some 300]]⟩ ∧
      [some (300 : ℚ)] ∈ (DataFrame.mk ["Calories"]
        [[some 100], [some 300]]).rows ∧
      cellAt [some (300 : ℚ)] 0 ≠ none :=
  ⟨by rfl, by rfl, by decide,
   filter_data_missing_excluded dfEx "Calories" "between" (.pair 0 400) _ 0
     [some 300] (Or.inr (Or.inr (Or.inr rfl))) (by rfl) (by rfl) (by decide)⟩

/-! ### C4: the nutritional ratios -/

/-- C4: for every registered category, the descriptive-statistics entry
carries a non-empty `ratio` mapping exactly when Fat, Protein and Carb are
all columns of that category's table, in which case it is precisely the
three quotients of column sums — never a partial ratio set. -/
theorem calculate_descriptive_stats_ratios (p : DataProcessor) (cat : String)
    (df : DataFrame) (h : (cat, df) ∈ p.datasets) :
    ∃ st : DescStats, (cat, st) ∈ p.calculate_descriptive_stats ∧
      (st.ratio ≠ [] ↔
        ("Fat" ∈ df.columns ∧ "Protein" ∈ df.columns ∧
          "Carb" ∈ df.columns)) ∧
      (("Fat" ∈ df.columns ∧ "Protein" ∈ df.columns ∧ "Carb" ∈ df.columns) →
        st.ratio =
          [("fat_to_protein", colSum df "Fat" / colSum df "Protein"),
           ("protein_to_carb", colSum df "Protein" / colSum df "Carb"),
           ("carb_to_fat", colSum df "Carb" / colSum df "Fat")]) := by
  refine ⟨⟨describeDf df, ratiosOf df⟩, ?_, ?_, ?_⟩
  · exact List.mem_map.mpr ⟨(cat, df), h, rfl⟩
  · by_cases hc : "Fat" ∈ df.columns ∧ "Protein" ∈ df.columns ∧
      "Carb" ∈ df.columns
    · simp [ratiosOf, hc]
    · simp [ratiosOf, hc]
  · intro hc
    simp [ratiosOf, hc]

/-- C4 witness: the category `"food"` of `procEx`, whose table `dfNutr` has
all three columns with sums 6, 2 and 4. -/
theorem calculate_descriptive_stats_ratios_witness :
    ("food", dfNutr) ∈ procEx.datasets ∧
      ∃ st : DescStats, (st.ratio ≠ [] ↔
          ("Fat" ∈ dfNutr.columns ∧ "Protein" ∈ dfNutr.columns ∧
            "Carb" ∈ dfNutr.columns)) ∧
        (("food", st) ∈ procEx.calculate_descriptive_stats) ∧
        (("Fat" ∈ dfNutr.columns ∧ "Protein" ∈ dfNutr.columns ∧
            "Carb" ∈ dfNutr.columns) →
          st.ratio =
            [("fat_to_protein", colSum dfNutr "Fat" / colSum dfNutr "Protein"),
             ("protein_to_carb", colSum dfNutr "Protein" / colSum dfNutr "Carb"),
             ("carb_to_fat", colSum dfNutr "Carb" / colSum dfNutr "Fat")]) := by
  refine ⟨by decide, ?_⟩
  obtain ⟨st, h1, h2, h3⟩ :=
    calculate_descriptive_stats_ratios procEx "food" dfNutr (by decide)
  exact ⟨st, h2, h1, h3⟩

/-! ### C3: shape of the comparison result -/

/-- The field names of a comparison record are exactly the nine of
`statFields`, in order. -/
theorem statRecord_keys (df : DataFrame) (n : String) :
    (statRecord df n).map Prod.fst = statFields := by
  unfold statRecord
  cases colIdx df.columns n with
  | none => simp [statFields]
  | some i => rfl

/-- Every field of the record for an absent column is missing. -/
theorem statRecord_absent (df : DataFrame) (n : String)
    (h : n ∉ df.columns) :
    ∀ kv ∈ statRecord df n, kv.2 = StatVal.missing := by
  intro kv hkv
  rw [statRecord, colIdx_eq_none df.columns n h] at hkv
  simp only [List.mem_map] at hkv
  obtain ⟨k, _, rfl⟩ := hkv
  rfl

/-- `qstat` yields a missing value or a number that is an integer count of
hundredths. -/
theorem qstat_shape (o : Option ℚ) :
    qstat o = .missing ∨ ∃ m : ℤ, qstat o = .num ((m : ℚ) / 100) := by
  cases o with
  | none => exact Or.inl rfl
  | some q => exact Or.inr ⟨roundHalfEven (q * 100), rfl⟩

/-- `sqrtRound2` always yields an integer count of hundredths. -/
theorem sqrtRound2_shape (v : ℚ) :
    ∃ m : ℤ, sqrtRound2 v = (m : ℚ) / 100 := by
  unfold sqrtRound2
  split
  · exact ⟨_, rfl⟩
  · exact ⟨0, rfl⟩

/-- Every field of a comparison record is shaped as the spec demands:
`count` is an integer (or missing), every other field is missing or a
number rounded to two decimal places (an integer count of hundredths). -/
theorem statRecord_shape (df : DataFrame) (n : String) :
    ∀ kv ∈ statRecord df n,
      (kv.1 = "count" → (kv.2 = .missing ∨ ∃ m : ℤ, kv.2 = .int m)) ∧
      (kv.1 ≠ "count" →
        (kv.2 = .missing ∨ ∃ m : ℤ, kv.2 = .num ((m : ℚ) / 100))) := by
  intro kv hkv
  unfold statRecord at hkv
  cases hc : colIdx df.columns n with
  | none =>
    rw [hc] at hkv
    simp only [List.mem_map] at hkv
    obtain ⟨k, _, rfl⟩ := hkv
    exact ⟨fun _ => Or.inl rfl, fun _ => Or.inl rfl⟩
  | some i =>
    rw [hc] at hkv
    simp only [List.mem_cons, List.not_mem_nil, or_false] at hkv
    have hstd : (if (colVals df i).length < 2 then StatVal.missing
        else StatVal.num (sqrtRound2 (varQ (colVals df i)))) = .missing ∨
        ∃ m : ℤ, (if (colVals df i).length < 2 then StatVal.missing
        else StatVal.num (sqrtRound2 (varQ (colVals df i)))) =
          .num ((m : ℚ) / 100) := by
      split
      · exact Or.inl rfl
      · obtain ⟨m, hm⟩ := sqrtRound2_shape (varQ (colVals df i))
        exact Or.inr ⟨m, by rw [hm]⟩
    rcases hkv with rfl | rfl | rfl | rfl | rfl | rfl | rfl | rfl | rfl
    · exact ⟨fun _ => Or.inr ⟨_, rfl⟩, fun hne => absurd rfl hne⟩
    · exact ⟨fun hcount => absurd (show ("mean" : String) = "count" from
        hcount) (by decide), fun _ => qstat_shape _⟩
    · exact ⟨fun hcount => absurd (show ("median" : String) = "count" from
        hcount) (by decide), fun _ => qstat_shape _⟩
    · exact ⟨fun hcount => absurd (show ("std" : String) = "count" from
        hcount) (by decide), fun _ => hstd⟩
    · exact ⟨fun hcount => absurd (show ("min" : String) = "count" from
        hcount) (by decide), fun _ => qstat_shape _⟩
    · exact ⟨fun hcount => absurd (show ("max" : String) = "count" from
        hcount) (by decide), fun _ => qstat_shape _⟩
    · exact ⟨fun hcount => absurd (show ("25%" : String) = "count" from
        hcount) (by decide), fun _ => qstat_shape _⟩
    · exact ⟨fun hcount => absurd (show ("50%" : String) = "count" from
        hcount) (by decide), fun _ => qstat_shape _⟩
    · exact ⟨fun hcount => absurd (show ("75%" : String) = "count" from
        hcount) (by decide), fun _ => qstat_shape _⟩

/-- Membership in the inferred common-column set is membership in every
registered table's column set. -/
theorem mem_commonCols (p : DataProcessor) (hne : p.datasets ≠ [])
    (x : String) :
    x ∈ commonCols p ↔ ∀ pr ∈ p.datasets, x ∈ pr.2.columns := by
  obtain ⟨ds, cats⟩ := p
  cases ds with
  | nil => exact absurd rfl hne
  | cons pr0 rest =>
    simp only [commonCols, List.mem_filter, List.mem_dedup,
      decide_eq_true_iff, List.forall_mem_cons]

/-- The full conclusion of the comparison-shape claim for a state `p` and a
nutrient argument. -/
def CompareComplete (p : DataProcessor)
    (nutrients : Option (List String)) : Prop :=
  ∃ res, p.compare_datasets nutrients = some res ∧
    res.map Prod.fst = p.datasets.map Prod.fst ∧
    (∀ ns, nutrients = some ns → resolveNutrients p nutrients = ns) ∧
    (nutrients = none →
      ∀ x, x ∈ resolveNutrients p nutrients ↔
        ∀ pr ∈ p.datasets, x ∈ pr.2.columns) ∧
    List.Forall₂ (fun pr entry =>
      entry.1 = pr.1 ∧
      entry.2.map Prod.fst = resolveNutrients p nutrients ∧
      ∀ rec ∈ entry.2,
        rec.2.map Prod.fst = statFields ∧
        (rec.1 ∉ pr.2.columns → ∀ kv ∈ rec.2, kv.2 = StatVal.missing) ∧
        ∀ kv ∈ rec.2,
          (kv.1 = "count" →
            (kv.2 = StatVal.missing ∨ ∃ m : ℤ, kv.2 = StatVal.int m)) ∧
          (kv.1 ≠ "count" →
            (kv.2 = StatVal.missing ∨
              ∃ m : ℤ, kv.2 = StatVal.num ((m : ℚ) / 100))))
      p.datasets res

/-- C3: with at least two registered categories, `compare_datasets`
succeeds; the result's keys are exactly the registered categories, each
category's record keys are exactly the working nutrient set (the caller's
list verbatim, else the common columns of all tables), each record has
exactly the nine fields, all nine missing when the category's table lacks
the column, with `count` an integer and every other present value rounded
to two decimal places. -/
theorem compare_datasets_complete (p : DataProcessor)
    (nutrients : Option (List String)) (h : 2 ≤ p.datasets.length) :
    CompareComplete p nutrients := by
  have hlt : ¬ p.datasets.length < 2 := by omega
  have hne : p.datasets ≠ [] := by
    intro hcon
    rw [hcon] at h
    exact absurd h (by decide)
  refine ⟨p.datasets.map fun pr =>
      (pr.1, (resolveNutrients p nutrients).map fun n =>
        (n, statRecord pr.2 n)), ?_, ?_, ?_, ?_, ?_⟩
  · simp [DataProcessor.compare_datasets, hlt]
  · rw [List.map_map]
    exact List.map_congr_left fun pr _ => rfl
  · intro ns hns
    rw [hns]
    rfl
  · intro hns
    rw [hns]
    exact mem_commonCols p hne
  · rw [List.forall₂_map_right_iff]
    have hfst : ∀ pr : String × DataFrame,
        List.map (Prod.fst ∘ fun n => (n, statRecord pr.2 n))
          (resolveNutrients p nutrients) = resolveNutrients p nutrients :=
      fun pr => (List.map_congr_left fun n _ =>
        (rfl : (Prod.fst ∘ fun n => (n, statRecord pr.2 n)) n = id n)).trans
        (List.map_id _)
    refine List.forall₂_same.mpr fun pr _ =>
      ⟨rfl, by rw [List.map_map]; exact hfst pr, ?_⟩
    intro rec hrec
    simp only [List.mem_map] at hrec
    obtain ⟨n, _, rfl⟩ := hrec
    exact ⟨statRecord_keys pr.2 n, statRecord_absent pr.2 n,
      statRecord_shape pr.2 n⟩

/-- C3 witness: the two-category state `procEx`, with the inferred
(common-column) nutrient set. -/
theorem compare_datasets_complete_witness :
    2 ≤ procEx.datasets.length ∧ CompareComplete procEx none :=
  ⟨by decide, compare_datasets_complete procEx none (by decide)⟩

end NutriEngine
